import Mathlib

/-!
Verification development for the retrieval-corpus pipeline of
`src/ui_elements.py` (Ollama-Workbench).

The Python file delegates chunking to langchain's
`CharacterTextSplitter(chunk_size=1000, chunk_overlap=0)` (default separator
`"\n\n"`, `keep_separator=False`, `strip_whitespace=True`, length measured in
characters), embedding to `OllamaEmbeddings`, and storage/search to `Chroma`
(one persisted directory per corpus under the `corpus` folder).  Text is
modelled as `List Char` (a Python `str` is a sequence of characters), corpus
storage as a map from corpus name to the state of its directory, and the
mutating operations of `manage_corpus` / `create_corpus_from_files` /
`create_corpus_from_text` / `get_corpus_context_from_db` as functions on that
state returning the new state (or result) together with an optional error,
mirroring Python's exception behaviour.
-/

namespace OllamaWorkbench

/-- The two-character separator `"\n\n"`: the default separator of
`CharacterTextSplitter`, and the joiner appended after each file's content in
`create_corpus_from_files` (src/ui_elements.py:641). -/
def nn : List Char := ['\n', '\n']

/-- Model of `re.split("\n\n", text)` as performed by langchain's
`_split_text_with_regex` with `keep_separator=False`: splits the character
sequence at every non-overlapping, leftmost occurrence of the two-character
separator `"\n\n"`.  `splitNN []` is `[[]]`, matching Python's
`"".split("\n\n") == [""]`. -/
def splitNN : List Char → List (List Char)
  | [] => [[]]
  | [c] => [[c]]
  | a :: b :: rest =>
    if a = '\n' ∧ b = '\n' then [] :: splitNN rest
    else
      match splitNN (b :: rest) with
      | [] => [[a]]
      | s :: ss => (a :: s) :: ss

/-- Whether the character sequence contains the separator `"\n\n"` as a
contiguous substring. -/
def hasNN : List Char → Bool
  | [] => false
  | [_] => false
  | a :: b :: rest => (a = '\n' && b = '\n') || hasNN (b :: rest)

/-- The characters removed by Python's `str.strip()` (used by
`_merge_splits` via `strip_whitespace=True`): space, tab, newline, carriage
return, vertical tab, form feed. -/
def isPySpace (c : Char) : Bool :=
  c = ' ' || c = '\t' || c = '\n' || c = '\r' || c = '\x0b' || c = '\x0c'

/-- Model of Python `str.strip()`: drop `isPySpace` characters from both
ends. -/
def pyStrip (l : List Char) : List Char :=
  ((l.dropWhile isPySpace).reverse.dropWhile isPySpace).reverse

/-- Model of `TextSplitter._join_docs(docs, "\n\n")`: join the accumulated
splits with the separator, strip surrounding whitespace, and return `none`
for an empty result (such a chunk is not emitted). -/
def joinDocs (docs : List (List Char)) : Option (List Char) :=
  let text := pyStrip (List.intercalate nn docs)
  if text = [] then none else some text

/-- Append the chunk joined from `current` to `docs`, when it is non-empty.
In the Python source this is guarded by `len(current_doc) > 0`; the guard is
equivalent to the `none` case here because joining zero docs yields the empty
string, which `_join_docs` maps to `None`. -/
def emitDoc (docs : List (List Char)) (current : List (List Char)) :
    List (List Char) :=
  match joinDocs current with
  | none => docs
  | some doc => docs ++ [doc]

/-- Model of the inner `while` loop of `TextSplitter._merge_splits`: pop
splits from the front of `current_doc` (updating `total`) while
`total > chunk_overlap` or adding the next split of length `dLen` would
exceed `chunk_size` with `total > 0`.  The separator length is 2 (`"\n\n"`).
When `current_doc` is empty the Python guard is false (`total` is then 0),
so the loop exits; we return directly. -/
def popOverlap (chunkSize chunkOverlap dLen : Nat) :
    List (List Char) → Nat → List (List Char) × Nat
  | [], total => ([], total)
  | d :: rest, total =>
    if total > chunkOverlap ∨ (total + dLen + 2 > chunkSize ∧ total > 0) then
      popOverlap chunkSize chunkOverlap dLen rest
        (total - (d.length + if rest ≠ [] then 2 else 0))
    else (d :: rest, total)

/-- Model of the main loop of `TextSplitter._merge_splits` (separator
`"\n\n"`, so `separator_len = 2`): greedily accumulate splits into
`current`, emitting a joined chunk and popping overlap whenever adding the
next split would exceed `chunkSize`; after the loop the final accumulated
chunk is emitted. -/
def mergeLoop (chunkSize chunkOverlap : Nat) :
    List (List Char) → List (List Char) → List (List Char) → Nat →
    List (List Char)
  | [], docs, current, _total => emitDoc docs current
  | d :: ds, docs, current, total =>
    let dLen := d.length
    if total + dLen + (if current ≠ [] then 2 else 0) > chunkSize then
      let docs1 := emitDoc docs current
      let p := popOverlap chunkSize chunkOverlap dLen current total
      mergeLoop chunkSize chunkOverlap ds docs1 (p.1 ++ [d])
        (p.2 + dLen + if p.1 ≠ [] then 2 else 0)
    else
      mergeLoop chunkSize chunkOverlap ds docs (current ++ [d])
        (total + dLen + if current ≠ [] then 2 else 0)

/-- Model of `CharacterTextSplitter(chunk_size, chunk_overlap).split_text`
with the default separator `"\n\n"` as used at src/ui_elements.py:650-651:
split on the separator, discard empty splits, then merge greedily. -/
def splitText (chunkSize chunkOverlap : Nat) (text : List Char) :
    List (List Char) :=
  mergeLoop chunkSize chunkOverlap
    ((splitNN text).filter (fun s => !s.isEmpty)) [] [] 0

/-! ## Tokens-per-second arithmetic (src/ui_elements.py:64-66 and 256) -/

/-- Python truthiness of an optional integer (`eval_count` / `eval_duration`
may be `None` or an integer): `None` and `0` are falsy. -/
def pyTruthy : Option Int → Bool
  | none => false
  | some v => v != 0

/-- Model of the tokens-per-second expression of `run_comparison`
(src/ui_elements.py:64-66) and `contextual_response_test`
(src/ui_elements.py:256):
`ec / (ed / (10**9)) if ec and ed else 0`, computed over the rationals. -/
def tokensPerSecond (evalCount evalDuration : Option Int) : ℚ :=
  if pyTruthy evalCount && pyTruthy evalDuration then
    ((evalCount.getD 0 : ℤ) : ℚ) / (((evalDuration.getD 0 : ℤ) : ℚ) / 10 ^ 9)
  else 0

/-! ## Corpus storage model

One directory per corpus name under the `corpus` folder
(src/ui_elements.py:578-583).  A directory is either bare (created by
`os.makedirs` but holding no persisted vector store — this arises when a
build fails after `os.makedirs` and before `Chroma` persists, e.g. a
`UnicodeDecodeError` while reading a selected file at
src/ui_elements.py:639-640) or holds a persisted Chroma database whose
entries are the stored segment texts. -/

/-- State of one corpus directory. -/
inductive DirState
  | bare
  | db (entries : List (List Char))
deriving DecidableEq, Repr

/-- Error outcomes.  `fileNotFound`, `dirNotEmpty` and `decodeError` model
the Python exceptions actually reachable in the source
(`FileNotFoundError` from `shutil.rmtree`, `OSError ENOTEMPTY` from
`os.rename` onto a non-empty directory, `UnicodeDecodeError` from reading a
non-text file); `corpusNotFound`, `emptyCorpus` and `nameConflict` are the
spec's §7 taxonomy names, present so the spec's claims can be stated. -/
inductive Err
  | fileNotFound
  | dirNotEmpty
  | decodeError
  | corpusNotFound
  | emptyCorpus
  | nameConflict
deriving DecidableEq, Repr

/-- Corpus storage root: a map from corpus name to the state of its
directory (`none` = no such directory). -/
def State : Type := String → Option DirState

/-- The empty storage root: no corpus directories. -/
def init : State := fun _ => none

/-- Point update of the storage root. -/
def setDir (st : State) (name : String) (v : Option DirState) : State :=
  fun n => if n = name then v else st n

/-- Model of `os.makedirs(corpus_path, exist_ok=True)`
(src/ui_elements.py:633 and 647): creates a bare directory when absent,
leaves an existing directory unchanged. -/
def mkdirs (st : State) (name : String) : State :=
  match st name with
  | none => setDir st name (some .bare)
  | some _ => st

/-- The segment texts persisted in a corpus directory (a bare or absent
directory holds none). -/
def entriesOf : Option DirState → List (List Char)
  | some (.db e) => e
  | _ => []

/-- Model of `create_corpus_from_text` (src/ui_elements.py:645-657):
`os.makedirs(..., exist_ok=True)`, chunk with
`CharacterTextSplitter(chunk_size=1000, chunk_overlap=0)`, embed with
`OllamaEmbeddings` (modelled as available), then
`Chroma.from_documents(docs, embeddings, persist_directory=corpus_path)`
followed by `db.persist()`.  `Chroma.from_documents` pointed at an existing
persisted directory loads it and appends the new documents (the source never
clears prior contents), so the resulting entries are the prior entries
followed by the new chunks; the operation itself raises nothing. -/
def createCorpusFromText (st : State) (name : String) (text : List Char) :
    State × Option Err :=
  let st1 := mkdirs st name
  let chunks := splitText 1000 0 text
  (setDir st1 name (some (.db (entriesOf (st1 name) ++ chunks))), none)

/-- Model of the file-combining loop of `create_corpus_from_files`
(src/ui_elements.py:636-641): `all_text += file_content + "\n\n"` over the
selected files in order. -/
def combineFiles (docs : List (List Char)) : List Char :=
  docs.foldl (fun acc d => acc ++ d ++ nn) []

/-- Model of reading the selected files (src/ui_elements.py:637-640): each
file's decoded content, or `none` for a file whose bytes are not valid
UTF-8, in which case `open(...).read()` raises `UnicodeDecodeError` at the
first such file and the partial text is discarded. -/
def readAll : List (Option (List Char)) → Option (List (List Char))
  | [] => some []
  | none :: _ => none
  | some t :: rest => (readAll rest).map (fun ts => t :: ts)

/-- Model of `create_corpus_from_files` (src/ui_elements.py:631-643):
`os.makedirs(corpus_path, exist_ok=True)`, then read and concatenate the
selected files, then delegate to `create_corpus_from_text`.  A decode
failure leaves the directory already created by `makedirs`. -/
def createCorpusFromFiles (st : State) (name : String)
    (files : List (Option (List Char))) : State × Option Err :=
  let st1 := mkdirs st name
  match readAll files with
  | none => (st1, some .decodeError)
  | some ds => createCorpusFromText st1 name (combineFiles ds)

/-- Model of the corpus delete action (src/ui_elements.py:595-598):
`shutil.rmtree(os.path.join(corpus_folder, corpus))` with no
`ignore_errors`, so a missing directory raises `FileNotFoundError`. -/
def deleteCorpus (st : State) (name : String) : State × Option Err :=
  match st name with
  | none => (st, some .fileNotFound)
  | some _ => (setDir st name none, none)

/-- Model of the corpus rename action (src/ui_elements.py:602-613):
an unchecked `os.rename(old_path, new_path)` (POSIX `rename(2)`): renaming a
missing source raises `FileNotFoundError`; renaming a directory onto itself
succeeds with no effect; renaming onto an existing directory silently
replaces it when that directory is empty (a bare directory) and raises
`OSError` (`ENOTEMPTY`) when it is non-empty (a directory holding a
persisted database). -/
def renameCorpus (st : State) (oldName newName : String) :
    State × Option Err :=
  match st oldName with
  | none => (st, some .fileNotFound)
  | some d =>
    if oldName = newName then (st, none)
    else
      match st newName with
      | none => (setDir (setDir st oldName none) newName (some d), none)
      | some .bare => (setDir (setDir st oldName none) newName (some d), none)
      | some (.db _) => (st, some .dirNotEmpty)

/-! ## Similarity search and query -/

/-- Model of Chroma's `similarity_search` over the stored entries, with the
similarity of each stored segment to the (already embedded) query given by
`simq`: the stored entries ordered by descending similarity, truncated to
the `k` nearest.  When fewer than `k` entries are stored, all of them are
returned (chromadb returns the available results with a warning). -/
def similaritySearch (simq : List Char → ℚ) (k : Nat)
    (entries : List (List Char)) : List (List Char) :=
  (entries.insertionSort (fun a b => simq b ≤ simq a)).take k

/-- Model of `get_corpus_context_from_db` (src/ui_elements.py:659-664):
opens `Chroma(persist_directory=corpus_path, embedding_function=...)` —
which performs no existence check and simply finds no stored entries when
the directory is absent or bare — then `similarity_search(query, k=3)` and
`"\n".join(...)` of the matched texts.  `sim query` gives the similarity of
a stored segment to the embedded query (the embedder is deterministic, spec
§4.2).  No code path raises: the error component is always `none`. -/
def getCorpusContextFromDb (sim : List Char → List Char → ℚ) (st : State)
    (name : String) (query : List Char) : List Char × Option Err :=
  (List.intercalate ['\n']
    (similaritySearch (sim query) 3 (entriesOf (st name))), none)

/-- Reconstruction map used to state the spec's chunk-reconstruction
property: concatenate the segments after removing, from the front of each
segment but the first, a chosen number of overlapping characters. -/
def overlapConcat : List (List Char) → List Nat → List Char
  | [], _ => []
  | s :: rest, drops =>
    s ++ (List.zipWith (fun seg d => seg.drop d) rest drops).flatten

/-! ## Helper lemmas -/

theorem splitNN_eq_self : ∀ (l : List Char), hasNN l = false → splitNN l = [l]
  | [], _ => rfl
  | [_], _ => rfl
  | a :: b :: rest, h => by
    have hor := h
    simp only [hasNN, Bool.or_eq_false_iff, Bool.and_eq_false_iff] at hor
    have hne : ¬(a = '\n' ∧ b = '\n') := by
      rcases hor.1 with h1 | h1 <;>
        exact fun hc => by simp [hc.1, hc.2] at h1
    have h2 : splitNN (b :: rest) = [b :: rest] :=
      splitNN_eq_self (b :: rest) hor.2
    simp only [splitNN, if_neg hne, h2]

theorem intercalate_single (x : List Char) : List.intercalate nn [x] = x := by
  simp [List.intercalate]

theorem entriesOf_mkdirs (st : State) (n : String) :
    entriesOf (mkdirs st n n) = entriesOf (st n) := by
  unfold mkdirs
  cases h : st n with
  | none => simp [setDir, entriesOf]
  | some d => simp [h]

theorem readAll_map_some : ∀ (ds : List (List Char)),
    readAll (ds.map some) = some ds
  | [] => rfl
  | t :: rest => by simp [readAll, readAll_map_some rest]

theorem combineFiles_foldl (docs : List (List Char)) :
    ∀ acc : List Char,
      List.foldl (fun a d => a ++ d ++ nn) acc docs
        = acc ++ (docs.map (fun d => d ++ nn)).flatten := by
  induction docs with
  | nil => intro acc; simp
  | cons d ds ih =>
    intro acc
    simp only [List.foldl_cons, List.map_cons, List.flatten_cons]
    rw [ih]
    simp [List.append_assoc]

/-! ## Claim theorems -/

/-- C6: for every chunk size and overlap, chunking the empty string yields an
empty sequence of segments (no empty segment is emitted). -/
theorem C6_chunk_empty_text (chunkSize chunkOverlap : Nat) :
    splitText chunkSize chunkOverlap [] = [] := rfl

/-- C10: in the performance-comparison computation, the tokens-per-second
value equals `eval_count / (eval_duration / 10^9)` — equivalently
`eval_count * 10^9 / eval_duration` — when both `eval_count` and
`eval_duration` are non-zero and non-null, and equals 0 otherwise; when the
division is performed its denominator `eval_duration / 10^9` is non-zero. -/
theorem C10_tokens_per_second_guarded (ec ed : Option Int) :
    ((pyTruthy ec && pyTruthy ed) = true →
      tokensPerSecond ec ed
          = ((ec.getD 0 : ℤ) : ℚ) * 10 ^ 9 / ((ed.getD 0 : ℤ) : ℚ)
        ∧ (((ed.getD 0 : ℤ) : ℚ) / 10 ^ 9) ≠ 0)
    ∧ ((pyTruthy ec && pyTruthy ed) = false → tokensPerSecond ec ed = 0) := by
  constructor
  · intro h
    have hed : (ed.getD 0 : ℤ) ≠ 0 := by
      have h2 : pyTruthy ed = true := (Bool.and_eq_true _ _ |>.mp h).2
      cases ed with
      | none => simp [pyTruthy] at h2
      | some v =>
        simp only [pyTruthy, bne_iff_ne, ne_eq, decide_eq_true_eq] at h2
        simpa using h2
    have hedQ : ((ed.getD 0 : ℤ) : ℚ) ≠ 0 := Int.cast_ne_zero.mpr hed
    constructor
    · simp only [tokensPerSecond, h, if_true]
      rw [div_div_eq_mul_div]
    · exact div_ne_zero hedQ (by norm_num)
  · intro h
    simp [tokensPerSecond, h]

/-- C10 witness: concrete evaluation with `eval_count = 4` and
`eval_duration = 2·10^9` nanoseconds. -/
theorem C10_witness :
    (pyTruthy (some 4) && pyTruthy (some 2000000000)) = true
    ∧ (tokensPerSecond (some 4) (some 2000000000)
          = (((some 4 : Option Int).getD 0 : ℤ) : ℚ) * 10 ^ 9
              / (((some 2000000000 : Option Int).getD 0 : ℤ) : ℚ)
        ∧ ((((some 2000000000 : Option Int).getD 0 : ℤ) : ℚ) / 10 ^ 9) ≠ 0) :=
  ⟨by decide, (C10_tokens_per_second_guarded (some 4) (some 2000000000)).1
    (by decide)⟩

/-- C3 counterexample: deleting a non-existent corpus IS an error —
`shutil.rmtree` raises `FileNotFoundError` — refuting the claimed
idempotency. -/
theorem C3_counterexample :
    deleteCorpus init "c" = (init, some Err.fileNotFound) := rfl

/-- C3 (amended): deleting an existing corpus succeeds and removes it, but
the operation is not idempotent: repeating the delete fails with
`FileNotFoundError` (the corpus does remain absent). -/
theorem C3_delete_not_idempotent (st : State) (c : String) (d : DirState)
    (h : st c = some d) :
    (deleteCorpus st c).2 = none
    ∧ (deleteCorpus st c).1 c = none
    ∧ deleteCorpus (deleteCorpus st c).1 c
        = ((deleteCorpus st c).1, some Err.fileNotFound) := by
  simp [deleteCorpus, h, setDir]

/-- C3 witness: concrete run of the amended claim on a one-corpus store. -/
theorem C3_witness :
    (setDir init "c" (some DirState.bare)) "c" = some DirState.bare
    ∧ ((deleteCorpus (setDir init "c" (some DirState.bare)) "c").2 = none
      ∧ (deleteCorpus (setDir init "c" (some DirState.bare)) "c").1 "c" = none
      ∧ deleteCorpus
            (deleteCorpus (setDir init "c" (some DirState.bare)) "c").1 "c"
          = ((deleteCorpus (setDir init "c" (some DirState.bare)) "c").1,
              some Err.fileNotFound)) :=
  ⟨rfl, C3_delete_not_idempotent _ _ DirState.bare rfl⟩

/-- C2 counterexample: building a corpus from text whose chunking produces
no segments succeeds (no error, in particular no `EmptyCorpus`), leaving a
present corpus with zero stored segments. -/
theorem C2_counterexample :
    (createCorpusFromText init "c" []).2 = none
    ∧ (createCorpusFromText init "c" []).2 ≠ some Err.emptyCorpus
    ∧ (createCorpusFromText init "c" []).1 "c" = some (DirState.db []) := by
  refine ⟨rfl, by simp [createCorpusFromText], ?_⟩
  simp [createCorpusFromText, mkdirs, init, setDir, entriesOf,
    C6_chunk_empty_text]

/-- C2 (amended): when chunking produces no segments, `create_corpus_from_text`
does not fail — there is no `EmptyCorpus` check — it creates/keeps the corpus
directory and persists it with its prior entries unchanged (an empty corpus
when the name was fresh). -/
theorem C2_empty_chunking_succeeds (st : State) (c : String)
    (text : List Char) (h : splitText 1000 0 text = []) :
    (createCorpusFromText st c text).2 = none
    ∧ (createCorpusFromText st c text).1 c
        = some (DirState.db (entriesOf (st c))) := by
  refine ⟨rfl, ?_⟩
  simp [createCorpusFromText, h, setDir, entriesOf_mkdirs]

/-- C2 witness: the text `"\n\n"` is non-empty yet chunks to no segments;
building from it succeeds with an empty corpus. -/
theorem C2_witness :
    splitText 1000 0 ['\n', '\n'] = []
    ∧ ((createCorpusFromText init "c" ['\n', '\n']).2 = none
      ∧ (createCorpusFromText init "c" ['\n', '\n']).1 "c"
          = some (DirState.db (entriesOf (init "c")))) :=
  ⟨by decide, C2_empty_chunking_succeeds init "c" ['\n', '\n'] (by decide)⟩

/-- C1 counterexample: querying a corpus name that does not exist in the
storage root returns an empty SUCCESS result (`""`, no error), not a
`CorpusNotFound` failure. -/
theorem C1_counterexample :
    getCorpusContextFromDb (fun _ _ => 0) init "c" [] = ([], none)
    ∧ (getCorpusContextFromDb (fun _ _ => 0) init "c" []).2
        ≠ some Err.corpusNotFound := by
  constructor
  · rfl
  · simp [getCorpusContextFromDb]

/-- C1 (amended): querying a non-existent corpus never fails — the code
opens (and would create) an empty vector store instead of checking
existence — and returns the empty string as a successful result; in
particular this is what happens immediately after `delete_corpus` of that
name. -/
theorem C1_query_missing_corpus_empty_success
    (sim : List Char → List Char → ℚ) (st st0 : State) (c : String)
    (q : List Char) (d : DirState) (h : st c = none) (h0 : st0 c = some d) :
    getCorpusContextFromDb sim st c q = ([], none)
    ∧ getCorpusContextFromDb sim (deleteCorpus st0 c).1 c q = ([], none) := by
  constructor
  · simp [getCorpusContextFromDb, h, entriesOf, similaritySearch,
      List.insertionSort, List.intercalate]
  · simp [getCorpusContextFromDb, deleteCorpus, h0, setDir, entriesOf,
      similaritySearch, List.insertionSort, List.intercalate]

/-- C1 witness: concrete missing-corpus query and delete-then-query. -/
theorem C1_witness :
    init "c" = none
    ∧ (setDir init "c" (some DirState.bare)) "c" = some DirState.bare
    ∧ (getCorpusContextFromDb (fun _ _ => 0) init "c" ['q'] = ([], none)
      ∧ getCorpusContextFromDb (fun _ _ => 0)
          (deleteCorpus (setDir init "c" (some DirState.bare)) "c").1 "c" ['q']
          = ([], none)) :=
  ⟨rfl, rfl, C1_query_missing_corpus_empty_success (fun _ _ => 0) init
    (setDir init "c" (some DirState.bare)) "c" ['q'] DirState.bare rfl rfl⟩

/-- C4 counterexample: with corpus `a` holding persisted content and corpus
`b` existing as an empty (bare) directory — a state the code itself produces
when a build fails after `os.makedirs` — `rename_corpus a b` does NOT fail:
the unchecked `os.rename` succeeds and silently replaces `b` with `a`'s
content. -/
theorem C4_counterexample :
    (renameCorpus
        (setDir (setDir init "a" (some (DirState.db [['x']]))) "b"
          (some DirState.bare)) "a" "b").2 = none
    ∧ (renameCorpus
        (setDir (setDir init "a" (some (DirState.db [['x']]))) "b"
          (some DirState.bare)) "a" "b").1 "b"
        = some (DirState.db [['x']])
    ∧ (renameCorpus
        (setDir (setDir init "a" (some (DirState.db [['x']]))) "b"
          (some DirState.bare)) "a" "b").1 "a" = none := by
  refine ⟨rfl, ?_, ?_⟩ <;> decide

/-- C4 (amended): `rename_corpus` performs an unchecked `os.rename`: when
`new_name` exists as a corpus with persisted contents the OS call fails
(`ENOTEMPTY`, not a `NameConflict` raised by the code) and nothing is
overwritten or merged; but when `new_name` exists as an empty directory the
rename silently replaces it (see the counterexample). -/
theorem C4_rename_onto_nonempty_fails (st : State) (a b : String)
    (d : DirState) (e : List (List Char)) (hne : a ≠ b)
    (ha : st a = some d) (hb : st b = some (DirState.db e)) :
    renameCorpus st a b = (st, some Err.dirNotEmpty) := by
  simp [renameCorpus, ha, hb, hne]

/-- C4 witness: concrete rename onto a corpus with persisted content. -/
theorem C4_witness :
    ("a" : String) ≠ "b"
    ∧ (setDir (setDir init "a" (some (DirState.db [['x']]))) "b"
        (some (DirState.db [['y']]))) "a" = some (DirState.db [['x']])
    ∧ (setDir (setDir init "a" (some (DirState.db [['x']]))) "b"
        (some (DirState.db [['y']]))) "b" = some (DirState.db [['y']])
    ∧ renameCorpus
        (setDir (setDir init "a" (some (DirState.db [['x']]))) "b"
          (some (DirState.db [['y']]))) "a" "b"
        = (setDir (setDir init "a" (some (DirState.db [['x']]))) "b"
            (some (DirState.db [['y']])), some Err.dirNotEmpty) :=
  ⟨by decide, by decide, by decide,
    C4_rename_onto_nonempty_fails _ "a" "b" (DirState.db [['x']]) [['y']]
      (by decide) (by decide) (by decide)⟩

/-- C7: `create_corpus_from_files` concatenates the selected documents in
order, each followed by the blank-line separator `"\n\n"`, and hands exactly
that text to the chunking build: the text given to the Chunker is
`doc_1 ++ "\n\n" ++ doc_2 ++ "\n\n" ++ ...`. -/
theorem C7_build_concatenates_with_separator (st : State) (c : String)
    (docs : List (List Char)) :
    createCorpusFromFiles st c (docs.map some)
        = createCorpusFromText (mkdirs st c) c (combineFiles docs)
    ∧ combineFiles docs = (docs.map (fun d => d ++ nn)).flatten := by
  constructor
  · simp [createCorpusFromFiles, readAll_map_some]
  · unfold combineFiles
    rw [combineFiles_foldl docs []]
    simp

/-- C8: for every index state and every `k > 0`, search returns at most `k`
results ordered by descending similarity to the query embedding; when the
index holds fewer than `k` entries it returns exactly all stored entries
(a permutation of the store, still in descending-similarity order), without
error. -/
theorem C8_search_topk_ordered (simq : List Char → ℚ) (k : Nat)
    (entries : List (List Char)) (hk : 0 < k) :
    (similaritySearch simq k entries).length ≤ k
    ∧ List.Sorted (fun a b => simq b ≤ simq a)
        (similaritySearch simq k entries)
    ∧ (entries.length < k →
        List.Perm (similaritySearch simq k entries) entries) := by
  haveI : IsTotal (List Char) (fun a b => simq b ≤ simq a) :=
    ⟨fun a b => (le_total (simq b) (simq a))⟩
  haveI : IsTrans (List Char) (fun a b => simq b ≤ simq a) :=
    ⟨fun _ _ _ h1 h2 => le_trans h2 h1⟩
  refine ⟨?_, ?_, ?_⟩
  · simp [similaritySearch]
  · exact List.Pairwise.sublist (List.take_sublist _ _)
      (List.sorted_insertionSort _ entries)
  · intro h
    have hlen : (entries.insertionSort (fun a b => simq b ≤ simq a)).length
        = entries.length :=
      (List.perm_insertionSort _ entries).length_eq
    unfold similaritySearch
    rw [List.take_of_length_le (by omega)]
    exact List.perm_insertionSort _ entries

/-- C8 witness: a two-slot request on a one-entry index returns the single
stored entry. -/
theorem C8_witness :
    0 < 2
    ∧ ((similaritySearch (fun _ => (0 : ℚ)) 2 [['a']]).length ≤ 2
      ∧ List.Sorted (fun a b => (fun _ => (0 : ℚ)) b ≤ (fun _ => (0 : ℚ)) a)
          (similaritySearch (fun _ => (0 : ℚ)) 2 [['a']])
      ∧ (([['a']] : List (List Char)).length < 2 →
          List.Perm (similaritySearch (fun _ => (0 : ℚ)) 2 [['a']])
            [['a']])) :=
  ⟨by decide, C8_search_topk_ordered (fun _ => (0 : ℚ)) 2 [['a']] (by decide)⟩

/-- C9: starting from a storage root where `c` is absent, the sequence
`build_corpus(c, docs)`, `delete_corpus(c)`, `build_corpus(c, docs)` runs
with no error at any step, and a query on `c` afterwards returns exactly the
same result (hence the same top match) as a query after the first build
alone: corpus names are fully reusable after deletion. -/
theorem C9_round_trip_reusable (st : State) (c : String)
    (docs : List (List Char)) (sim : List Char → List Char → ℚ)
    (q : List Char) (h : st c = none) :
    (createCorpusFromFiles st c (docs.map some)).2 = none
    ∧ (deleteCorpus (createCorpusFromFiles st c (docs.map some)).1 c).2 = none
    ∧ (createCorpusFromFiles
        (deleteCorpus (createCorpusFromFiles st c (docs.map some)).1 c).1 c
        (docs.map some)).2 = none
    ∧ getCorpusContextFromDb sim
        (createCorpusFromFiles
          (deleteCorpus (createCorpusFromFiles st c (docs.map some)).1 c).1 c
          (docs.map some)).1 c q
      = getCorpusContextFromDb sim
          (createCorpusFromFiles st c (docs.map some)).1 c q := by
  simp [createCorpusFromFiles, createCorpusFromText, readAll_map_some,
    mkdirs, h, setDir, entriesOf, deleteCorpus, getCorpusContextFromDb]

/-- C9 witness: concrete round trip on a fresh name with one document. -/
theorem C9_witness :
    init "c" = none
    ∧ ((createCorpusFromFiles init "c" ([['h', 'i']].map some)).2 = none
      ∧ (deleteCorpus
          (createCorpusFromFiles init "c" ([['h', 'i']].map some)).1 "c").2
            = none
      ∧ (createCorpusFromFiles
          (deleteCorpus
            (createCorpusFromFiles init "c" ([['h', 'i']].map some)).1
            "c").1 "c" ([['h', 'i']].map some)).2 = none
      ∧ getCorpusContextFromDb (fun _ _ => 0)
          (createCorpusFromFiles
            (deleteCorpus
              (createCorpusFromFiles init "c" ([['h', 'i']].map some)).1
              "c").1 "c" ([['h', 'i']].map some)).1 "c" ['q']
        = getCorpusContextFromDb (fun _ _ => 0)
            (createCorpusFromFiles init "c" ([['h', 'i']].map some)).1 "c"
            ['q']) :=
  ⟨rfl, C9_round_trip_reusable init "c" [['h', 'i']] (fun _ _ => 0) ['q'] rfl⟩

/-- C5 counterexample: chunking `"a\n\nb"` with `chunk_size = 2`,
`overlap = 1` yields `["a", "b"]`; the `"\n\n"` separator is dropped at the
chunk boundary, so no removal of overlapping portions can concatenate the
segments back to the original text. -/
theorem C5_counterexample :
    splitText 2 1 ['a', '\n', '\n', 'b'] = [['a'], ['b']]
    ∧ ¬ ∃ drops : List Nat,
        overlapConcat (splitText 2 1 ['a', '\n', '\n', 'b']) drops
          = ['a', '\n', '\n', 'b'] := by
  have h : splitText 2 1 ['a', '\n', '\n', 'b'] = [['a'], ['b']] := by decide
  refine ⟨h, ?_⟩
  rintro ⟨drops, hd⟩
  rw [h] at hd
  cases drops with
  | nil => simp [overlapConcat] at hd
  | cons d ds =>
    have hlen := congrArg List.length hd
    simp [overlapConcat] at hlen
    omega

/-- C5 (amended): exact reconstruction fails in general because the splitter
cuts at `"\n\n"` separators, drops those separators at chunk boundaries and
strips surrounding whitespace (see the counterexample).  What does hold: for
any non-empty text that contains no `"\n\n"` separator and carries no
leading/trailing whitespace, and any `0 < overlap < chunk_size`, the chunker
returns the single segment `[text]` — it never cuts inside separator-free
text, even beyond `chunk_size` — and concatenation (with nothing to remove)
reconstructs the text exactly. -/
theorem C5_reconstruction_separator_free (chunkSize chunkOverlap : Nat)
    (text : List Char) (h1 : text ≠ []) (h2 : hasNN text = false)
    (h3 : pyStrip text = text) (h4 : 0 < chunkOverlap)
    (h5 : chunkOverlap < chunkSize) :
    splitText chunkSize chunkOverlap text = [text]
    ∧ overlapConcat (splitText chunkSize chunkOverlap text) [] = text := by
  have hj1 : joinDocs [text] = some text := by
    unfold joinDocs
    rw [intercalate_single, h3]
    simp [h1]
  have he0 : emitDoc ([] : List (List Char)) [] = [] := rfl
  have he1 : emitDoc ([] : List (List Char)) [text] = [text] := by
    simp [emitDoc, hj1]
  have hmain : splitText chunkSize chunkOverlap text = [text] := by
    unfold splitText
    rw [splitNN_eq_self text h2]
    have hne : text.isEmpty = false := by
      cases text with
      | nil => exact absurd rfl h1
      | cons a l => rfl
    have hfilter : ([text].filter (fun s => !s.isEmpty)) = [text] := by
      simp [List.filter, hne]
    rw [hfilter]
    simp only [mergeLoop]
    have hp : popOverlap chunkSize chunkOverlap text.length [] 0
        = ([], 0) := rfl
    split_ifs with hgt0 hgt <;> simpa [hp, he0] using he1
  exact ⟨hmain, by rw [hmain]; simp [overlapConcat]⟩

/-- C5 witness: the separator-free text `"abc"` with `chunk_size = 5`,
`overlap = 2`. -/
theorem C5_witness :
    (['a', 'b', 'c'] : List Char) ≠ []
    ∧ hasNN ['a', 'b', 'c'] = false
    ∧ pyStrip ['a', 'b', 'c'] = ['a', 'b', 'c']
    ∧ 0 < 2 ∧ 2 < 5
    ∧ (splitText 5 2 ['a', 'b', 'c'] = [['a', 'b', 'c']]
      ∧ overlapConcat (splitText 5 2 ['a', 'b', 'c']) []
          = ['a', 'b', 'c']) :=
  ⟨by decide, by decide, by decide, by decide, by decide,
    C5_reconstruction_separator_free 5 2 ['a', 'b', 'c'] (by decide)
      (by decide) (by decide) (by decide) (by decide)⟩

end OllamaWorkbench
